import Mathlib

/-!
Verification of the OptionsTracker position-accounting and alert engine.

This file gives a shallow embedding of the core calculation code of the
repository and proves (or refutes) the claims of its specification.

Modelling conventions:
* JavaScript numbers are modelled as exact rationals (`ℚ`); the claims are
  algebraic identities about the arithmetic the code performs.
* Optional numeric fields (`number | null | undefined`) are `Option ℚ`.
  JavaScript truthiness on numbers (`null`, `undefined` and `0` are falsy)
  is `truthyQ`; the idioms `x || 0` and `x || null` are `jsOrZero` / `jsOrNull`.
* `Date` values carry no arithmetic in the verified code paths, so a close
  date is modelled as `Option Int` (a nullable timestamp); the code only
  tests its presence.
* `Array.prototype.sort` with a consistent comparator (the two comparators in
  the repository are induced by lexicographic sort keys) is modelled as the
  stable `List.insertionSort` over the comparator's "compare ≤ 0" relation.
* The human-readable `title` and `message` strings of alerts are built with
  locale number formatting and are not part of any claim; they are omitted
  from the embedded alert record.
-/

namespace OptionsTracker

/-- JavaScript truthiness of an optional number: `null`/`undefined` and `0` are falsy. -/
def truthyQ : Option ℚ → Bool
  | none => false
  | some x => x != 0

/-- The JavaScript idiom `x || 0` on an optional number. -/
def jsOrZero : Option ℚ → ℚ
  | none => 0
  | some x => x

/-- The JavaScript idiom `x || null` on an optional number: `0` collapses to `null`. -/
def jsOrNull : Option ℚ → Option ℚ
  | none => none
  | some x => if x = 0 then none else some x

/-- Option kind of a position (`'put' | 'call'`). -/
inductive OptionType where
  | put
  | call
deriving DecidableEq, Repr

/-- Derived lifecycle status of a position (`'open' | 'closed' | 'assigned'`). -/
inductive PosStatus where
  | open_
  | closed
  | assigned
deriving DecidableEq, Repr

/-- An option position record, with the raw trade fields and the derived
fields as stored by the record store (`OptionPosition` in `types/option.ts`).
Fields not consulted by any verified code path (the various other dates,
notes, `continueExistingWheel`, …) are omitted. -/
structure Position where
  id : String
  stockTicker : String
  wheelCycleName : Option String
  type : OptionType
  contracts : ℚ
  strike : ℚ
  premium : ℚ
  ownsStock : Bool
  assigned : Bool
  closeDate : Option Int
  stockCostBasis : Option ℚ
  stockQuantity : Option ℚ
  stockSalePrice : Option ℚ
  openFees : Option ℚ
  closeFees : Option ℚ
  premiumPaidToClose : Option ℚ
  status : PosStatus
  realizedPL : Option ℚ
  premiumRealizedPL : Option ℚ
  stockRealizedPL : Option ℚ
deriving DecidableEq, Repr

/-- Result of `calculatePositionMetrics` (create route and second update route). -/
structure MetricsResult where
  status : PosStatus
  realizedPL : Option ℚ
  premiumRealizedPL : Option ℚ
  stockRealizedPL : Option ℚ
deriving DecidableEq, Repr

/-- `calculatePositionMetrics` as defined in the position-create route
(`POST /api/positions`): status is `closed` when a close date is present,
`assigned` when the assignment flag is set and stock is owned, else `open`;
P/L fields are derived per status. -/
def calculatePositionMetrics (position : Position) : MetricsResult :=
  let status : PosStatus :=
    if position.closeDate.isSome then .closed
    else if position.assigned && position.ownsStock then .assigned
    else .open_
  if status = .closed then
    let premiumCollected := position.premium * position.contracts * 100
    let premiumPaid := jsOrZero position.premiumPaidToClose * position.contracts * 100
    let fees := jsOrZero position.openFees + jsOrZero position.closeFees
    let premiumRealizedPL := premiumCollected - premiumPaid - fees
    let stockRealizedPL :=
      if truthyQ position.stockSalePrice && truthyQ position.stockCostBasis &&
          truthyQ position.stockQuantity then
        (jsOrZero position.stockSalePrice - jsOrZero position.stockCostBasis) *
          jsOrZero position.stockQuantity
      else 0
    { status := status
      realizedPL := some (premiumRealizedPL + stockRealizedPL)
      premiumRealizedPL := some premiumRealizedPL
      stockRealizedPL := some stockRealizedPL }
  else if status = .assigned then
    let premiumCollected := position.premium * position.contracts * 100
    let fees := jsOrZero position.openFees
    { status := status
      realizedPL := some (premiumCollected - fees)
      premiumRealizedPL := some (premiumCollected - fees)
      stockRealizedPL := some 0 }
  else
    { status := status, realizedPL := none, premiumRealizedPL := none, stockRealizedPL := none }

/-- `calculatePositionMetrics` as defined in the second variant of the
position-update route (`PATCH /api/positions/[id]`); its body is identical
to the create-route helper. -/
def calculatePositionMetricsUpdate (position : Position) : MetricsResult :=
  let status : PosStatus :=
    if position.closeDate.isSome then .closed
    else if position.assigned && position.ownsStock then .assigned
    else .open_
  if status = .closed then
    let premiumCollected := position.premium * position.contracts * 100
    let premiumPaid := jsOrZero position.premiumPaidToClose * position.contracts * 100
    let fees := jsOrZero position.openFees + jsOrZero position.closeFees
    let premiumRealizedPL := premiumCollected - premiumPaid - fees
    let stockRealizedPL :=
      if truthyQ position.stockSalePrice && truthyQ position.stockCostBasis &&
          truthyQ position.stockQuantity then
        (jsOrZero position.stockSalePrice - jsOrZero position.stockCostBasis) *
          jsOrZero position.stockQuantity
      else 0
    { status := status
      realizedPL := some (premiumRealizedPL + stockRealizedPL)
      premiumRealizedPL := some premiumRealizedPL
      stockRealizedPL := some stockRealizedPL }
  else if status = .assigned then
    let premiumCollected := position.premium * position.contracts * 100
    let fees := jsOrZero position.openFees
    { status := status
      realizedPL := some (premiumCollected - fees)
      premiumRealizedPL := some (premiumCollected - fees)
      stockRealizedPL := some 0 }
  else
    { status := status, realizedPL := none, premiumRealizedPL := none, stockRealizedPL := none }

/-- Result of the first update-route variant of `calculatePositionMetrics`,
which derives only the status and the total realized P/L. -/
structure MetricsResultV1 where
  status : PosStatus
  realizedPL : Option ℚ
deriving DecidableEq, Repr

/-- `calculatePositionMetrics` as defined in the first variant of the
position-update route: status is `assigned` whenever the assignment flag is
set (no stock-ownership test), and only the premium realized P/L is computed. -/
def calculatePositionMetricsUpdateV1 (position : Position) : MetricsResultV1 :=
  let status : PosStatus :=
    if position.closeDate.isSome then .closed
    else if position.assigned then .assigned
    else .open_
  if status = .closed then
    let premiumCollected := position.premium * position.contracts * 100
    let premiumPaid := jsOrZero position.premiumPaidToClose * position.contracts * 100
    let fees := jsOrZero position.openFees + jsOrZero position.closeFees
    { status := status, realizedPL := some (premiumCollected - premiumPaid - fees) }
  else
    { status := status, realizedPL := none }

/-- Status rule exactly as the specification words it: `closed` iff a close
date is present; `assigned` iff the assignment flag is set, no close date is
present and stock is owned; otherwise `open`. -/
def specStatus (position : Position) : PosStatus :=
  if position.closeDate.isSome then .closed
  else if position.assigned && position.ownsStock then .assigned
  else .open_

/-- Status rule of the first update-route variant, stated directly: the
stock-ownership conjunct of the specification is dropped. -/
def specStatusNoOwnership (position : Position) : PosStatus :=
  if position.closeDate.isSome then .closed
  else if position.assigned then .assigned
  else .open_

/-- Premium component of realized P/L for a closed position, as the
specification words it (missing optional fields treated as `0`). -/
def specPremiumRealizedClosed (position : Position) : ℚ :=
  position.premium * position.contracts * 100 -
    jsOrZero position.premiumPaidToClose * position.contracts * 100 -
    (jsOrZero position.openFees + jsOrZero position.closeFees)

/-- Stock component of realized P/L for a closed position, as the
specification words it: the sale formula whenever all three stock-sale
fields are *present*, else `0`. -/
def specStockRealizedClosed (position : Position) : ℚ :=
  if position.stockSalePrice.isSome ∧ position.stockCostBasis.isSome ∧
      position.stockQuantity.isSome then
    (jsOrZero position.stockSalePrice - jsOrZero position.stockCostBasis) *
      jsOrZero position.stockQuantity
  else 0

/-- Stock component of realized P/L for a closed position, amended to what
the code computes: the sale formula only when all three stock-sale fields
are present *with nonzero values* (JavaScript truthiness), else `0`. -/
def specStockRealizedClosedNonzero (position : Position) : ℚ :=
  if truthyQ position.stockSalePrice && truthyQ position.stockCostBasis &&
      truthyQ position.stockQuantity then
    (jsOrZero position.stockSalePrice - jsOrZero position.stockCostBasis) *
      jsOrZero position.stockQuantity
  else 0

/-- A neutral base record used to build concrete test positions. -/
def basePosition : Position where
  id := "pos-1"
  stockTicker := "XYZ"
  wheelCycleName := some "XYZ"
  type := .put
  contracts := 1
  strike := 100
  premium := 2
  ownsStock := false
  assigned := false
  closeDate := none
  stockCostBasis := none
  stockQuantity := none
  stockSalePrice := none
  openFees := none
  closeFees := none
  premiumPaidToClose := none
  status := .open_
  realizedPL := none
  premiumRealizedPL := none
  stockRealizedPL := none

/-- A position with the assignment flag set, no close date and no stock
ownership: the two status derivations disagree on it. -/
def positionAssignedNoStock : Position :=
  { basePosition with assigned := true, ownsStock := false }

/-- C1 counterexample: on the first update-route variant the derived status
of a flagged position without stock ownership and without a close date is
`assigned`, while the claimed rule requires `open`; so the claimed status
rule does not hold on every update path. -/
theorem C1_status_rule_counterexample :
    (calculatePositionMetricsUpdateV1 positionAssignedNoStock).status ≠
      specStatus positionAssignedNoStock := by
  decide

/-- C1 (amended): the create route and the second update-route variant derive
the status exactly as claimed (`closed` iff a close date is present;
`assigned` iff the flag is set, no close date is present and stock is owned;
otherwise `open`); the first update-route variant omits the stock-ownership
conjunct and derives `assigned` from the flag alone. -/
theorem C1_status_rule (p : Position) :
    (calculatePositionMetrics p).status = specStatus p ∧
    (calculatePositionMetricsUpdate p).status = specStatus p ∧
    (calculatePositionMetricsUpdateV1 p).status = specStatusNoOwnership p := by
  unfold calculatePositionMetrics calculatePositionMetricsUpdate
    calculatePositionMetricsUpdateV1 specStatus specStatusNoOwnership
  cases hc : p.closeDate <;> cases ha : p.assigned <;> cases ho : p.ownsStock <;> simp

/-- C2 counterexample position: closed, with all three stock-sale fields
present but a sale price of `0`. -/
def positionClosedZeroSale : Position :=
  { basePosition with
    closeDate := some 0
    premium := 0
    stockSalePrice := some 0
    stockCostBasis := some 1
    stockQuantity := some 1 }

/-- C2 counterexample: on a closed position whose three stock-sale fields are
all present but whose sale price is `0`, the code computes a stock realized
P/L of `0`, not the claimed sale formula `(0 - 1) * 1 = -1`: presence of the
fields is not enough, the code tests JavaScript truthiness. -/
theorem C2_closed_pl_counterexample :
    (calculatePositionMetrics positionClosedZeroSale).status = PosStatus.closed ∧
    (calculatePositionMetrics positionClosedZeroSale).stockRealizedPL ≠
      some (specStockRealizedClosed positionClosedZeroSale) := by
  constructor <;>
    norm_num [calculatePositionMetrics, positionClosedZeroSale, basePosition,
      specStockRealizedClosed, truthyQ, jsOrZero]

/-- C2 (amended): for every position whose derived status is `closed`, the
premium realized P/L is premium·contracts·100 − premiumPaidToClose·contracts·100
− (openFees + closeFees) with missing optional fields treated as 0; the stock
realized P/L is (stockSalePrice − stockCostBasis)·stockQuantity when all three
stock-sale fields are present *with nonzero values* and 0 otherwise; and the
total realized P/L is their sum. -/
theorem C2_closed_pl (p : Position)
    (h : (calculatePositionMetrics p).status = PosStatus.closed) :
    (calculatePositionMetrics p).premiumRealizedPL = some (specPremiumRealizedClosed p) ∧
    (calculatePositionMetrics p).stockRealizedPL = some (specStockRealizedClosedNonzero p) ∧
    (calculatePositionMetrics p).realizedPL =
      some (specPremiumRealizedClosed p + specStockRealizedClosedNonzero p) := by
  unfold calculatePositionMetrics at h ⊢
  unfold specPremiumRealizedClosed specStockRealizedClosedNonzero
  cases hc : p.closeDate <;> cases ha : p.assigned <;> cases ho : p.ownsStock <;>
    simp_all

/-- C2 witness: the closed scenario of the specification (premium 2, one
contract, 0.50 paid to close, 1 open fee, 1 close fee, no stock sale). -/
def positionClosedScenario : Position :=
  { basePosition with
    closeDate := some 0
    premiumPaidToClose := some (1/2)
    openFees := some 1
    closeFees := some 1 }

/-- Witness for C2: the amended claim evaluated on the closed scenario
position, whose premium realized P/L is 200 − 50 − 2 = 148. -/
theorem C2_closed_pl_witness :
    (calculatePositionMetrics positionClosedScenario).premiumRealizedPL =
      some (specPremiumRealizedClosed positionClosedScenario) ∧
    (calculatePositionMetrics positionClosedScenario).stockRealizedPL =
      some (specStockRealizedClosedNonzero positionClosedScenario) ∧
    (calculatePositionMetrics positionClosedScenario).realizedPL =
      some (specPremiumRealizedClosed positionClosedScenario +
        specStockRealizedClosedNonzero positionClosedScenario) :=
  C2_closed_pl positionClosedScenario (by decide)

/-- C5: for every position whose derived status is `assigned`, the premium
realized P/L is premium·contracts·100 − openFees (0 when absent), the stock
realized P/L is 0 and the total realized P/L equals the premium component;
for every position whose derived status is `open`, all three realized P/L
fields are null. -/
theorem C5_assigned_open_pl (p : Position) :
    ((calculatePositionMetrics p).status = PosStatus.assigned →
      (calculatePositionMetrics p).premiumRealizedPL =
        some (p.premium * p.contracts * 100 - jsOrZero p.openFees) ∧
      (calculatePositionMetrics p).stockRealizedPL = some 0 ∧
      (calculatePositionMetrics p).realizedPL = (calculatePositionMetrics p).premiumRealizedPL) ∧
    ((calculatePositionMetrics p).status = PosStatus.open_ →
      (calculatePositionMetrics p).realizedPL = none ∧
      (calculatePositionMetrics p).premiumRealizedPL = none ∧
      (calculatePositionMetrics p).stockRealizedPL = none) := by
  unfold calculatePositionMetrics
  cases hc : p.closeDate <;> cases ha : p.assigned <;> cases ho : p.ownsStock <;> simp

/-- An assigned position: flag set, stock owned, no close date. -/
def positionAssigned : Position :=
  { basePosition with
    assigned := true
    ownsStock := true
    openFees := some 1
    stockCostBasis := some 98
    stockQuantity := some 100 }

/-- Witness for C5: the assigned clause evaluated on a concrete assigned
position and the open clause on a concrete open position. -/
theorem C5_assigned_open_pl_witness :
    ((calculatePositionMetrics positionAssigned).premiumRealizedPL =
      some (positionAssigned.premium * positionAssigned.contracts * 100 -
        jsOrZero positionAssigned.openFees) ∧
      (calculatePositionMetrics positionAssigned).stockRealizedPL = some 0 ∧
      (calculatePositionMetrics positionAssigned).realizedPL =
        (calculatePositionMetrics positionAssigned).premiumRealizedPL) ∧
    ((calculatePositionMetrics basePosition).realizedPL = none ∧
      (calculatePositionMetrics basePosition).premiumRealizedPL = none ∧
      (calculatePositionMetrics basePosition).stockRealizedPL = none) :=
  ⟨(C5_assigned_open_pl positionAssigned).1 (by decide),
    (C5_assigned_open_pl basePosition).2 (by decide)⟩

/-! ### Alert engine (`lib/strategies.ts`) -/

/-- Alert kind (`'roll' | 'close' | 'warning'`). -/
inductive AlertType where
  | roll
  | close
  | warning
deriving DecidableEq, Repr

/-- Alert urgency (`'low' | 'medium' | 'high'`). -/
inductive AlertUrgency where
  | low
  | medium
  | high
deriving DecidableEq, Repr

/-- Strategy configuration: the roll and close thresholds, in percent.
The `type` tag (`standard`/`custom`) carries no behaviour in the alert
calculations and is omitted. -/
structure StrategyConfig where
  rollThreshold : ℚ
  closeThreshold : ℚ
deriving DecidableEq, Repr

/-- A strategy alert, without its human-readable `title`/`message` strings. -/
structure StrategyAlert where
  positionId : String
  ticker : String
  type : AlertType
  targetPrice : ℚ
  threshold : ℚ
  currentDistance : ℚ
  urgency : AlertUrgency
  position : Position
deriving DecidableEq, Repr

/-- `calculateRollAlert`: for an open position and a current stock price,
emit a `roll` alert when the price is at or above strike scaled by the roll
threshold, a `warning` alert when the price is within 0.5% below that
target, and nothing otherwise. -/
def calculateRollAlert (position : Position) (currentPrice : ℚ)
    (config : StrategyConfig) : Option StrategyAlert :=
  if position.status ≠ PosStatus.open_ then none
  else
    let rollThresholdMultiplier := 1 + config.rollThreshold / 100
    let targetRollPrice := position.strike * rollThresholdMultiplier
    let currentDistancePercent := (currentPrice - position.strike) / position.strike * 100
    if currentPrice ≥ targetRollPrice then
      let overshoot := currentPrice - targetRollPrice
      let overshootPercent := overshoot / position.strike * 100
      let urgency : AlertUrgency :=
        if overshootPercent ≥ 1 then .high
        else if overshootPercent ≥ 1/4 then .medium
        else .low
      some
        { positionId := position.id
          ticker := position.stockTicker
          type := .roll
          targetPrice := targetRollPrice
          threshold := config.rollThreshold
          currentDistance := currentDistancePercent
          urgency := urgency
          position := position }
    else
      let approachThresholdMultiplier := 1 + (config.rollThreshold - 1/2) / 100
      let approachPrice := position.strike * approachThresholdMultiplier
      if currentPrice ≥ approachPrice ∧ currentPrice < targetRollPrice then
        some
          { positionId := position.id
            ticker := position.stockTicker
            type := .warning
            targetPrice := targetRollPrice
            threshold := config.rollThreshold
            currentDistance := currentDistancePercent
            urgency := .low
            position := position }
      else none

/-- `calculateCloseAlert`: for an open position and a current option price,
emit a `close` alert when the option price has decayed to the target profit
level; a `null` option price yields no alert. -/
def calculateCloseAlert (position : Position) (currentOptionPrice : Option ℚ)
    (config : StrategyConfig) : Option StrategyAlert :=
  if position.status ≠ PosStatus.open_ then none
  else
    match currentOptionPrice with
    | none => none
    | some price =>
      let targetCloseMultiplier := (100 - config.closeThreshold) / 100
      let targetClosePrice := position.premium * targetCloseMultiplier
      let profitPercent := (position.premium - price) / position.premium * 100
      if price ≤ targetClosePrice then
        let urgency : AlertUrgency :=
          if profitPercent ≥ config.closeThreshold + 5 then .high
          else if profitPercent ≥ config.closeThreshold then .medium
          else .medium
        some
          { positionId := position.id
            ticker := position.stockTicker
            type := .close
            targetPrice := targetClosePrice
            threshold := config.closeThreshold
            currentDistance := profitPercent
            urgency := urgency
            position := position }
      else none

/-- `calculatePositionAlerts`: the roll check runs only for a truthy stock
price, the close check only for a truthy option price. -/
def calculatePositionAlerts (position : Position) (currentStockPrice : Option ℚ)
    (currentOptionPrice : Option ℚ) (config : StrategyConfig) : List StrategyAlert :=
  let rollAlerts : List StrategyAlert :=
    if truthyQ currentStockPrice then
      match calculateRollAlert position (jsOrZero currentStockPrice) config with
      | some a => [a]
      | none => []
    else []
  let closeAlerts : List StrategyAlert :=
    if truthyQ currentOptionPrice then
      match calculateCloseAlert position currentOptionPrice config with
      | some a => [a]
      | none => []
    else []
  rollAlerts ++ closeAlerts

/-- Numeric rank of an urgency, as in the sort comparator of
`calculateAllAlerts` (`high` first). -/
def urgencyOrder : AlertUrgency → Nat
  | .high => 0
  | .medium => 1
  | .low => 2

/-- The "compare ≤ 0" relation of the alert sort comparator: by urgency rank,
ties broken by descending absolute distance from threshold. -/
def alertLE (a b : StrategyAlert) : Prop :=
  urgencyOrder a.urgency < urgencyOrder b.urgency ∨
    (urgencyOrder a.urgency = urgencyOrder b.urgency ∧
      |b.currentDistance| ≤ |a.currentDistance|)

instance : DecidableRel alertLE := fun a b => by
  unfold alertLE; infer_instance

instance : IsTotal StrategyAlert alertLE where
  total a b := by
    unfold alertLE
    rcases lt_trichotomy (urgencyOrder a.urgency) (urgencyOrder b.urgency) with h | h | h
    · exact Or.inl (Or.inl h)
    · rcases le_total |b.currentDistance| |a.currentDistance| with hd | hd
      · exact Or.inl (Or.inr ⟨h, hd⟩)
      · exact Or.inr (Or.inr ⟨h.symm, hd⟩)
    · exact Or.inr (Or.inl h)

instance : IsTrans StrategyAlert alertLE where
  trans a b c hab hbc := by
    unfold alertLE at hab hbc ⊢
    rcases hab with hab | ⟨hab, hab2⟩ <;> rcases hbc with hbc | ⟨hbc, hbc2⟩
    · exact Or.inl (hab.trans hbc)
    · exact Or.inl (hbc ▸ hab)
    · exact Or.inl (hab ▸ hbc)
    · exact Or.inr ⟨hab.trans hbc, hbc2.trans hab2⟩

/-- `calculateAllAlerts`: evaluate every open position against the price
maps and sort the alerts by the urgency/distance comparator. The stock price
map is modelled as a lookup function keyed by uppercase ticker; the option
price map (when present) is keyed by position id. -/
def calculateAllAlerts (positions : List Position) (stockPrices : String → Option ℚ)
    (optionPrices : Option (String → Option ℚ)) (config : StrategyConfig) :
    List StrategyAlert :=
  let alerts := positions.flatMap fun position =>
    if position.status ≠ PosStatus.open_ then []
    else
      let stockPrice := stockPrices position.stockTicker.toUpper
      let optionPrice :=
        match optionPrices with
        | none => none
        | some prices => jsOrNull (prices position.id)
      calculatePositionAlerts position (jsOrNull stockPrice) optionPrice config
  List.insertionSort alertLE alerts

/-- C3: roll evaluation for every open position and stock price: at or above
the target roll price (strike scaled by 1 + rollThreshold/100) a `roll` alert
is emitted with urgency `high` when the overshoot percent is ≥ 1, `medium`
when ≥ 0.25, else `low`; within the half-percent band below the target a
`warning` alert with urgency `low` is emitted; below the band no roll-family
alert; the reported distance is (price − strike)/strike·100 in both cases. -/
theorem C3_roll_evaluation (p : Position) (price : ℚ) (cfg : StrategyConfig)
    (hopen : p.status = PosStatus.open_) (hstrike : 0 < p.strike) :
    (price ≥ p.strike * (1 + cfg.rollThreshold / 100) →
      calculateRollAlert p price cfg = some
        { positionId := p.id
          ticker := p.stockTicker
          type := AlertType.roll
          targetPrice := p.strike * (1 + cfg.rollThreshold / 100)
          threshold := cfg.rollThreshold
          currentDistance := (price - p.strike) / p.strike * 100
          urgency :=
            if (price - p.strike * (1 + cfg.rollThreshold / 100)) / p.strike * 100 ≥ 1 then
              AlertUrgency.high
            else if (price - p.strike * (1 + cfg.rollThreshold / 100)) / p.strike * 100 ≥ 1/4 then
              AlertUrgency.medium
            else AlertUrgency.low
          position := p }) ∧
    (price ≥ p.strike * (1 + (cfg.rollThreshold - 1/2) / 100) ∧
        price < p.strike * (1 + cfg.rollThreshold / 100) →
      calculateRollAlert p price cfg = some
        { positionId := p.id
          ticker := p.stockTicker
          type := AlertType.warning
          targetPrice := p.strike * (1 + cfg.rollThreshold / 100)
          threshold := cfg.rollThreshold
          currentDistance := (price - p.strike) / p.strike * 100
          urgency := AlertUrgency.low
          position := p }) ∧
    (price < p.strike * (1 + (cfg.rollThreshold - 1/2) / 100) →
      calculateRollAlert p price cfg = none) := by
  have hstat : ¬ p.status ≠ PosStatus.open_ := by simp [hopen]
  refine ⟨?_, ?_, ?_⟩
  · intro h
    simp only [calculateRollAlert, if_neg hstat, if_pos h]
  · intro h
    simp only [calculateRollAlert, if_neg hstat, if_neg (not_le.mpr h.2), if_pos h]
  · intro h
    have hband : ¬ price ≥ p.strike * (1 + cfg.rollThreshold / 100) := by
      intro hc
      nlinarith [hstrike, h, hc]
    simp only [calculateRollAlert, if_neg hstat, if_neg hband]
    rw [if_neg]
    intro hc
    exact absurd h (not_lt.mpr hc.1)

/-- Witness for C3: the specification's first scenario, a put at strike 100
with the standard 3% roll threshold and a stock price of 104, which is one
percent past the 103 target: a `roll` alert of urgency `high`, distance 4%. -/
theorem C3_roll_evaluation_witness :
    calculateRollAlert basePosition 104 ⟨3, 75⟩ = some
      { positionId := "pos-1"
        ticker := "XYZ"
        type := AlertType.roll
        targetPrice := 103
        threshold := 3
        currentDistance := 4
        urgency := AlertUrgency.high
        position := basePosition } := by
  have h := (C3_roll_evaluation basePosition 104 ⟨3, 75⟩ rfl (by norm_num [basePosition])).1
    (by norm_num [basePosition])
  rw [h]
  norm_num [basePosition]

/-- Positions produced by `calculateRollAlert` are never `close` alerts. -/
theorem calculateRollAlert_type_ne_close (p : Position) (price : ℚ)
    (cfg : StrategyConfig) (a : StrategyAlert)
    (h : calculateRollAlert p price cfg = some a) : a.type ≠ AlertType.close := by
  simp only [calculateRollAlert] at h
  split_ifs at h
  all_goals first
    | exact Option.noConfusion h
    | (rw [← Option.some.inj h]; simp)

/-- C4: close evaluation for every open position: with a non-null option
price a `close` alert is emitted iff the price is at or below
premium·(100 − closeThreshold)/100, with profit percent
(premium − price)/premium·100 reported as the distance and urgency `high`
iff the profit percent is at least closeThreshold + 5, else `medium`; with a
null option price no close alert is produced (neither by `calculateCloseAlert`
nor anywhere in `calculatePositionAlerts`). -/
theorem C4_close_evaluation (p : Position) (cfg : StrategyConfig)
    (hopen : p.status = PosStatus.open_) :
    (∀ price : ℚ,
      (price ≤ p.premium * ((100 - cfg.closeThreshold) / 100) →
        calculateCloseAlert p (some price) cfg = some
          { positionId := p.id
            ticker := p.stockTicker
            type := AlertType.close
            targetPrice := p.premium * ((100 - cfg.closeThreshold) / 100)
            threshold := cfg.closeThreshold
            currentDistance := (p.premium - price) / p.premium * 100
            urgency :=
              if (p.premium - price) / p.premium * 100 ≥ cfg.closeThreshold + 5 then
                AlertUrgency.high
              else AlertUrgency.medium
            position := p }) ∧
      (¬ price ≤ p.premium * ((100 - cfg.closeThreshold) / 100) →
        calculateCloseAlert p (some price) cfg = none)) ∧
    calculateCloseAlert p none cfg = none ∧
    (∀ stockPrice : Option ℚ, ∀ a ∈ calculatePositionAlerts p stockPrice none cfg,
      a.type ≠ AlertType.close) := by
  have hstat : ¬ p.status ≠ PosStatus.open_ := by simp [hopen]
  refine ⟨fun price => ⟨?_, ?_⟩, ?_, ?_⟩
  · intro h
    simp only [calculateCloseAlert, if_neg hstat, if_pos h]
    congr 1
    rcases le_or_lt (cfg.closeThreshold + 5) ((p.premium - price) / p.premium * 100) with
      hu | hu
    · rw [if_pos hu, if_pos hu]
    · rw [if_neg (not_le.mpr hu), if_neg (not_le.mpr hu), ite_self]
  · intro h
    simp only [calculateCloseAlert, if_neg hstat, if_neg h]
  · simp only [calculateCloseAlert, if_neg hstat]
  · intro sp a ha
    rcases sp with _ | v
    · simp [calculatePositionAlerts, truthyQ] at ha
    · simp only [calculatePositionAlerts, truthyQ] at ha
      by_cases hv : v = 0
      · subst hv; simp at ha
      · rw [List.mem_append] at ha
        rcases ha with ha | ha
        · rw [if_pos (by simp [hv])] at ha
          rcases hr : calculateRollAlert p (jsOrZero (some v)) cfg with _ | b <;>
            rw [hr] at ha
          · simp at ha
          · simp at ha
            rw [ha]
            exact calculateRollAlert_type_ne_close p (jsOrZero (some v)) cfg b hr
        · simp at ha

/-- Witness for C4: an open position with premium 2 under the standard 75%
close threshold has target close price 0.5; an option price of 0.4 is an 80%
profit, which is ≥ 80, so a `close` alert of urgency `high` is emitted, and
a null option price yields no alert. -/
theorem C4_close_evaluation_witness :
    calculateCloseAlert basePosition (some (2/5)) ⟨3, 75⟩ = some
      { positionId := "pos-1"
        ticker := "XYZ"
        type := AlertType.close
        targetPrice := 1/2
        threshold := 75
        currentDistance := 80
        urgency := AlertUrgency.high
        position := basePosition } ∧
    calculateCloseAlert basePosition none ⟨3, 75⟩ = none := by
  have h := C4_close_evaluation basePosition ⟨3, 75⟩ rfl
  refine ⟨?_, h.2.1⟩
  have h1 := (h.1 (2/5)).1 (by norm_num [basePosition])
  rw [h1]
  norm_num [basePosition]

/-- C8: in every alert list returned by `calculateAllAlerts`, any two alerts
in order satisfy: the earlier one's urgency rank (high, medium, low) is
strictly smaller, or the ranks are equal and the earlier one's absolute
distance from threshold is at least the later one's. -/
theorem C8_alert_ranking (positions : List Position) (stockPrices : String → Option ℚ)
    (optionPrices : Option (String → Option ℚ)) (config : StrategyConfig) :
    (calculateAllAlerts positions stockPrices optionPrices config).Pairwise
      (fun a b => urgencyOrder a.urgency < urgencyOrder b.urgency ∨
        (urgencyOrder a.urgency = urgencyOrder b.urgency ∧
          |b.currentDistance| ≤ |a.currentDistance|)) :=
  List.sorted_insertionSort alertLE _

/-! ### Wheel-cycle aggregation (`GET /api/wheel-cycles`) -/

/-- Wheel-cycle lifecycle status (`'active' | 'completed'`). -/
inductive CycleStatus where
  | active
  | completed
deriving DecidableEq, Repr

/-- Rounding to two decimals as done by `Math.round(x * 100) / 100`
(`Math.round` rounds halves toward positive infinity, as does `round`). -/
def round2 (x : ℚ) : ℚ := (round (x * 100) : ℤ) / 100

/-- The mutable per-cycle accumulator of the wheel-cycle route (the
`positions` array collected on it is not part of the response and is
omitted). -/
structure CycleAcc where
  totalPositions : Nat
  openPositions : Nat
  closedPositions : Nat
  totalPL : ℚ
  realizedPL : ℚ
  unrealizedPL : ℚ
  totalPremiumCollected : ℚ
  status : CycleStatus
deriving DecidableEq, Repr

/-- A fresh cycle accumulator, as initialised when a cycle name is first seen. -/
def initCycleAcc : CycleAcc where
  totalPositions := 0
  openPositions := 0
  closedPositions := 0
  totalPL := 0
  realizedPL := 0
  unrealizedPL := 0
  totalPremiumCollected := 0
  status := .active

/-- Accumulate one position into its cycle, following the `forEach` body of
the wheel-cycle route: open and assigned positions count as open and accrue
open-fee-adjusted premium as unrealized P/L; closed positions accrue their
stored realized P/L (when truthy) and net premium; `totalPL` is maintained
as realized + unrealized. -/
def accPosition (cycle : CycleAcc) (position : Position) : CycleAcc :=
  let cycle := { cycle with totalPositions := cycle.totalPositions + 1 }
  let cycle :=
    if position.status = PosStatus.open_ || position.status = PosStatus.assigned then
      let premiumCollected := position.premium * position.contracts * 100
      { cycle with
        openPositions := cycle.openPositions + 1
        status := CycleStatus.active
        unrealizedPL := cycle.unrealizedPL + (premiumCollected - jsOrZero position.openFees)
        totalPremiumCollected := cycle.totalPremiumCollected + premiumCollected }
    else if position.status = PosStatus.closed then
      let cycle := { cycle with closedPositions := cycle.closedPositions + 1 }
      let cycle :=
        if truthyQ position.realizedPL then
          { cycle with realizedPL := cycle.realizedPL + jsOrZero position.realizedPL }
        else cycle
      let premiumCollected := position.premium * position.contracts * 100
      let premiumPaid := jsOrZero position.premiumPaidToClose * position.contracts * 100
      { cycle with
        totalPremiumCollected := cycle.totalPremiumCollected + (premiumCollected - premiumPaid) }
    else cycle
  { cycle with totalPL := cycle.realizedPL + cycle.unrealizedPL }

/-- Grouping key of a position: its wheel-cycle name when truthy, else the
literal `"Uncategorized"` bucket. -/
def cycleKey (position : Position) : String :=
  match position.wheelCycleName with
  | none => "Uncategorized"
  | some s => if s = "" then "Uncategorized" else s

/-- Route a position into the insertion-ordered association list of cycle
accumulators (the `Map` of the route). -/
def addToCycles (cycles : List (String × CycleAcc)) (position : Position) :
    List (String × CycleAcc) :=
  let k := cycleKey position
  if cycles.any (fun c => c.1 == k) then
    cycles.map (fun c => if c.1 == k then (c.1, accPosition c.2 position) else c)
  else
    cycles ++ [(k, accPosition initCycleAcc position)]

/-- Group all positions into cycle accumulators, in first-seen order. -/
def groupCycles (positions : List Position) : List (String × CycleAcc) :=
  positions.foldl addToCycles []

/-- A wheel-cycle summary as returned by the route. -/
structure WheelCycle where
  name : String
  totalPositions : Nat
  openPositions : Nat
  closedPositions : Nat
  totalPL : ℚ
  realizedPL : ℚ
  unrealizedPL : ℚ
  totalPremiumCollected : ℚ
  status : CycleStatus
deriving DecidableEq, Repr

/-- The status pass of the route: a cycle with no open positions and at
least one closed position is marked completed. -/
def markCompleted (c : String × CycleAcc) : String × CycleAcc :=
  if c.2.openPositions = 0 ∧ c.2.closedPositions > 0 then
    (c.1, { c.2 with status := CycleStatus.completed })
  else c

/-- Shape a cycle accumulator into the response record, rounding the
monetary fields to two decimals. -/
def toWheelCycle (c : String × CycleAcc) : WheelCycle where
  name := c.1
  totalPositions := c.2.totalPositions
  openPositions := c.2.openPositions
  closedPositions := c.2.closedPositions
  totalPL := round2 c.2.totalPL
  realizedPL := round2 c.2.realizedPL
  unrealizedPL := round2 c.2.unrealizedPL
  totalPremiumCollected := round2 c.2.totalPremiumCollected
  status := c.2.status

/-- Rank used by the cycle sort comparator: active cycles first. -/
def cycleStatusRank : CycleStatus → Nat
  | .active => 0
  | .completed => 1

/-- The "compare ≤ 0" relation of the cycle sort comparator: active before
completed, ties by descending total P/L. -/
def cycleLE (a b : WheelCycle) : Prop :=
  cycleStatusRank a.status < cycleStatusRank b.status ∨
    (cycleStatusRank a.status = cycleStatusRank b.status ∧ b.totalPL ≤ a.totalPL)

instance : DecidableRel cycleLE := fun a b => by
  unfold cycleLE; infer_instance

instance : IsTotal WheelCycle cycleLE where
  total a b := by
    unfold cycleLE
    rcases lt_trichotomy (cycleStatusRank a.status) (cycleStatusRank b.status) with h | h | h
    · exact Or.inl (Or.inl h)
    · rcases le_total b.totalPL a.totalPL with hd | hd
      · exact Or.inl (Or.inr ⟨h, hd⟩)
      · exact Or.inr (Or.inr ⟨h.symm, hd⟩)
    · exact Or.inr (Or.inl h)

instance : IsTrans WheelCycle cycleLE where
  trans a b c hab hbc := by
    unfold cycleLE at hab hbc ⊢
    rcases hab with hab | ⟨hab, hab2⟩ <;> rcases hbc with hbc | ⟨hbc, hbc2⟩
    · exact Or.inl (hab.trans hbc)
    · exact Or.inl (hbc ▸ hab)
    · exact Or.inl (hab ▸ hbc)
    · exact Or.inr ⟨hab.trans hbc, hbc2.trans hab2⟩

/-- The full wheel-cycle aggregation: group, mark completed cycles, shape
the response records and sort them (active first, then total P/L
descending). -/
def wheelCycles (positions : List Position) : List WheelCycle :=
  List.insertionSort cycleLE (((groupCycles positions).map markCompleted).map toWheelCycle)

/-- Every accumulator built by the grouping fold still has status `active`
(the fold only ever writes `active`; `completed` is assigned in a later pass). -/
theorem groupCycles_status_active (positions : List Position) :
    ∀ c ∈ groupCycles positions, c.2.status = CycleStatus.active := by
  have main : ∀ (ps : List Position) (start : List (String × CycleAcc)),
      (∀ c ∈ start, c.2.status = CycleStatus.active) →
      ∀ c ∈ ps.foldl addToCycles start, c.2.status = CycleStatus.active := by
    intro ps
    induction ps with
    | nil => intro start hstart; simpa using hstart
    | cons p ps ih =>
      intro start hstart
      simp only [List.foldl_cons]
      apply ih
      intro c hc
      have hacc : ∀ acc : CycleAcc, acc.status = CycleStatus.active →
          (accPosition acc p).status = CycleStatus.active := by
        intro acc hacc
        unfold accPosition
        split_ifs <;> simp [hacc]
      simp only [addToCycles] at hc
      split_ifs at hc
      · rw [List.mem_map] at hc
        obtain ⟨c0, hc0, hc1⟩ := hc
        by_cases hk : c0.1 == cycleKey p
        · rw [if_pos hk] at hc1
          rw [← hc1]
          exact hacc c0.2 (hstart c0 hc0)
        · rw [if_neg hk] at hc1
          rw [← hc1]
          exact hstart c0 hc0
      · rw [List.mem_append] at hc
        rcases hc with hc | hc
        · exact hstart c hc
        · simp only [List.mem_singleton] at hc
          rw [hc]
          exact hacc initCycleAcc rfl
  exact main positions [] (by simp)

/-- C6: for every wheel cycle produced by the aggregation, the status is
`completed` iff the cycle's open-position count is zero and its
closed-position count is positive, and `active` otherwise. -/
theorem C6_cycle_status (positions : List Position) (c : WheelCycle)
    (hc : c ∈ wheelCycles positions) :
    c.status = CycleStatus.completed ↔ (c.openPositions = 0 ∧ 0 < c.closedPositions) := by
  unfold wheelCycles at hc
  rw [List.mem_insertionSort, List.mem_map] at hc
  obtain ⟨g, hg, rfl⟩ := hc
  rw [List.mem_map] at hg
  obtain ⟨g0, hg0, rfl⟩ := hg
  have hact := groupCycles_status_active positions g0 hg0
  unfold markCompleted toWheelCycle
  by_cases hcond : g0.2.openPositions = 0 ∧ g0.2.closedPositions > 0
  · rw [if_pos hcond]
    simpa using hcond
  · rw [if_neg hcond]
    simp only [hact]
    constructor
    · intro h
      exact absurd h (by simp)
    · intro h
      exact absurd h hcond

/-- A concrete closed position on ticker XYZ (as written back by the update
routes, status and realized P/L stored). -/
def positionClosedStored : Position :=
  { basePosition with
    closeDate := some 0
    premiumPaidToClose := some (1/2)
    openFees := some 1
    closeFees := some 1
    status := .closed
    realizedPL := some 148
    premiumRealizedPL := some 148
    stockRealizedPL := some 0 }

/-- The cycle produced by aggregating the single stored closed position. -/
def cycleOfClosedStored : WheelCycle where
  name := "XYZ"
  totalPositions := 1
  openPositions := 0
  closedPositions := 1
  totalPL := 148
  realizedPL := 148
  unrealizedPL := 0
  totalPremiumCollected := 150
  status := .completed

/-- Evaluation of the aggregation over the single stored closed position. -/
theorem wheelCycles_closedStored_eval :
    wheelCycles [positionClosedStored] = [cycleOfClosedStored] := by
  have hacc : accPosition initCycleAcc positionClosedStored =
      { totalPositions := 1, openPositions := 0, closedPositions := 1, totalPL := 148,
        realizedPL := 148, unrealizedPL := 0, totalPremiumCollected := 150,
        status := CycleStatus.active } := by
    simp [accPosition, initCycleAcc, truthyQ, jsOrZero, positionClosedStored,
      basePosition]
    norm_num
  have hg : groupCycles [positionClosedStored] =
      [("XYZ", accPosition initCycleAcc positionClosedStored)] := by
    simp [groupCycles, addToCycles, cycleKey, positionClosedStored, basePosition]
  unfold wheelCycles
  rw [hg, hacc]
  simp [markCompleted, toWheelCycle, round2, cycleOfClosedStored,
    List.insertionSort]
  norm_num

/-- Witness for C6: the aggregation over a single stored closed position
produces exactly that completed cycle, and the status invariant applies to
it: completed iff no open and some closed positions. -/
theorem C6_cycle_status_witness :
    cycleOfClosedStored.status = CycleStatus.completed ↔
      (cycleOfClosedStored.openPositions = 0 ∧ 0 < cycleOfClosedStored.closedPositions) :=
  C6_cycle_status [positionClosedStored] cycleOfClosedStored
    (by rw [wheelCycles_closedStored_eval]; exact List.mem_singleton.mpr rfl)

/-! ### Portfolio metrics (`GET /api/metrics`, the variant with live prices) -/

/-- The portfolio-metrics snapshot. -/
structure Metrics where
  totalPositions : Nat
  openPositions : Nat
  closedPositions : Nat
  assignedPositions : Nat
  realizedPL : ℚ
  premiumRealizedPL : ℚ
  stockRealizedPL : ℚ
  unrealizedPL : ℚ
  premiumUnrealizedPL : ℚ
  stockUnrealizedPL : ℚ
  openPremiumCollected : ℚ
  closedPremiumCollected : ℚ
  totalCapitalAllocated : ℚ
  totalFees : ℚ
deriving DecidableEq, Repr

/-- The metrics object as initialised by the route: counts by status,
all monetary accumulators zero. -/
def metricsInit (positions : List Position) : Metrics where
  totalPositions := positions.length
  openPositions := (positions.filter (fun p => p.status == PosStatus.open_)).length
  closedPositions := (positions.filter (fun p => p.status == PosStatus.closed)).length
  assignedPositions := (positions.filter (fun p => p.status == PosStatus.assigned)).length
  realizedPL := 0
  premiumRealizedPL := 0
  stockRealizedPL := 0
  unrealizedPL := 0
  premiumUnrealizedPL := 0
  stockUnrealizedPL := 0
  openPremiumCollected := 0
  closedPremiumCollected := 0
  totalCapitalAllocated := 0
  totalFees := 0

/-- One iteration of the metrics `forEach` body: accrue fees, then the
per-status buckets (closed: stored P/L components and net premium; open:
potential premium and premium unrealized P/L; assigned: gross premium,
premium realized P/L credited to realized P/L, and stock unrealized P/L from
the looked-up current price when truthy), then capital allocated. -/
def metricsStep (currentStockPrices : String → Option ℚ) (m : Metrics)
    (position : Position) : Metrics :=
  let premiumCollected := position.premium * position.contracts * 100
  let fees := jsOrZero position.openFees + jsOrZero position.closeFees
  let m := { m with totalFees := m.totalFees + fees }
  let m :=
    if position.status = PosStatus.closed then
      let premiumPaidToClose := jsOrZero position.premiumPaidToClose * position.contracts * 100
      let netPremium := premiumCollected - premiumPaidToClose
      let m := { m with closedPremiumCollected := m.closedPremiumCollected + netPremium }
      let m :=
        if truthyQ position.realizedPL then
          { m with realizedPL := m.realizedPL + jsOrZero position.realizedPL }
        else m
      let m :=
        if truthyQ position.premiumRealizedPL then
          { m with premiumRealizedPL := m.premiumRealizedPL + jsOrZero position.premiumRealizedPL }
        else m
      if truthyQ position.stockRealizedPL then
        { m with stockRealizedPL := m.stockRealizedPL + jsOrZero position.stockRealizedPL }
      else m
    else if position.status = PosStatus.open_ then
      let premiumUnrealized := premiumCollected - jsOrZero position.openFees
      { m with
        openPremiumCollected := m.openPremiumCollected + premiumCollected
        premiumUnrealizedPL := m.premiumUnrealizedPL + premiumUnrealized }
    else if position.status = PosStatus.assigned then
      let m := { m with closedPremiumCollected := m.closedPremiumCollected + premiumCollected }
      let m :=
        if truthyQ position.premiumRealizedPL then
          { m with
            premiumRealizedPL := m.premiumRealizedPL + jsOrZero position.premiumRealizedPL
            realizedPL := m.realizedPL + jsOrZero position.premiumRealizedPL }
        else m
      if position.ownsStock && truthyQ position.stockCostBasis &&
          truthyQ position.stockQuantity then
        let currentPrice := currentStockPrices position.stockTicker.toUpper
        if truthyQ currentPrice then
          { m with
            stockUnrealizedPL := m.stockUnrealizedPL +
              (jsOrZero currentPrice - jsOrZero position.stockCostBasis) *
                jsOrZero position.stockQuantity }
        else m
      else m
    else m
  if position.status = PosStatus.open_ || position.status = PosStatus.assigned then
    if position.type = OptionType.put then
      { m with totalCapitalAllocated := m.totalCapitalAllocated +
          position.strike * position.contracts * 100 }
    else if position.type = OptionType.call && position.ownsStock then
      let stockValue :=
        if position.ownsStock && truthyQ position.stockCostBasis then
          jsOrZero position.stockCostBasis * position.contracts * 100
        else position.strike * position.contracts * 100
      { m with totalCapitalAllocated := m.totalCapitalAllocated + stockValue }
    else m
  else m

/-- The full metrics computation: fold the positions, derive the total
unrealized P/L, and round every monetary field to two decimals. -/
def calculateMetrics (positions : List Position)
    (currentStockPrices : String → Option ℚ) : Metrics :=
  let m := positions.foldl (metricsStep currentStockPrices) (metricsInit positions)
  let m := { m with unrealizedPL := m.premiumUnrealizedPL + m.stockUnrealizedPL }
  { m with
    realizedPL := round2 m.realizedPL
    premiumRealizedPL := round2 m.premiumRealizedPL
    stockRealizedPL := round2 m.stockRealizedPL
    unrealizedPL := round2 m.unrealizedPL
    premiumUnrealizedPL := round2 m.premiumUnrealizedPL
    stockUnrealizedPL := round2 m.stockUnrealizedPL
    openPremiumCollected := round2 m.openPremiumCollected
    closedPremiumCollected := round2 m.closedPremiumCollected
    totalCapitalAllocated := round2 m.totalCapitalAllocated
    totalFees := round2 m.totalFees }

/-- A stored assigned position on ticker XYZ with premium realized P/L 200
(as the create route would store it: premium 2, one contract, no fees). -/
def positionAssignedStored : Position :=
  { basePosition with
    assigned := true
    ownsStock := true
    stockCostBasis := some 98
    stockQuantity := some 100
    status := .assigned
    realizedPL := some 200
    premiumRealizedPL := some 200
    stockRealizedPL := some 0 }

/-- C7 counterexample: aggregating the single assigned position with premium
realized P/L 200 yields a cycle whose realized P/L is 0 and whose unrealized
P/L is 200 — the wheel-cycle aggregator does *not* credit an assigned
position's premium realized P/L to the cycle's realized P/L; it accrues the
position like an open one, into unrealized P/L. -/
theorem C7_assigned_accrual_counterexample :
    positionAssignedStored.premiumRealizedPL = some 200 ∧
    (wheelCycles [positionAssignedStored]).map
        (fun c => (c.name, c.realizedPL, c.unrealizedPL)) = [("XYZ", 0, 200)] := by
  constructor
  · rfl
  · norm_num [wheelCycles, groupCycles, addToCycles, accPosition, initCycleAcc, cycleKey,
      toWheelCycle, markCompleted, round2, truthyQ, jsOrZero, basePosition,
      positionAssignedStored]
    decide

/-- C7 (amended): the wheel-cycle aggregator does not reuse the portfolio
aggregator's assigned-status accrual. For every assigned position the
wheel-cycle fold leaves the cycle's realized P/L unchanged and adds
premium·contracts·100 − openFees to its unrealized P/L (the open-position
rule), while the portfolio aggregator credits the position's truthy
premiumRealizedPL to both its premiumRealizedPL and realizedPL totals and
leaves its premium unrealized P/L unchanged. -/
theorem C7_assigned_accrual (p : Position) (h : p.status = PosStatus.assigned) :
    (∀ cycle : CycleAcc,
      (accPosition cycle p).realizedPL = cycle.realizedPL ∧
      (accPosition cycle p).unrealizedPL = cycle.unrealizedPL +
        (p.premium * p.contracts * 100 - jsOrZero p.openFees)) ∧
    (∀ (m : Metrics) (prices : String → Option ℚ),
      (metricsStep prices m p).realizedPL = m.realizedPL +
        (if truthyQ p.premiumRealizedPL then jsOrZero p.premiumRealizedPL else 0) ∧
      (metricsStep prices m p).premiumRealizedPL = m.premiumRealizedPL +
        (if truthyQ p.premiumRealizedPL then jsOrZero p.premiumRealizedPL else 0) ∧
      (metricsStep prices m p).premiumUnrealizedPL = m.premiumUnrealizedPL) := by
  constructor
  · intro cycle
    simp only [accPosition, h]
    norm_num
  · intro m prices
    refine ⟨?_, ?_, ?_⟩ <;>
      (simp only [metricsStep, h]
       simp [apply_ite Metrics.realizedPL, apply_ite Metrics.premiumRealizedPL,
         apply_ite Metrics.premiumUnrealizedPL]) <;>
      (try split_ifs <;> simp)

/-- Witness for C7 (amended): the accrual contrast evaluated on the concrete
stored assigned position, a fresh cycle accumulator and the initial metrics
of the singleton portfolio, with an empty price map. -/
theorem C7_assigned_accrual_witness :
    ((accPosition initCycleAcc positionAssignedStored).realizedPL = initCycleAcc.realizedPL ∧
      (accPosition initCycleAcc positionAssignedStored).unrealizedPL =
        initCycleAcc.unrealizedPL + (positionAssignedStored.premium *
          positionAssignedStored.contracts * 100 - jsOrZero positionAssignedStored.openFees)) ∧
    ((metricsStep (fun _ => none) (metricsInit [positionAssignedStored])
        positionAssignedStored).realizedPL =
      (metricsInit [positionAssignedStored]).realizedPL +
        (if truthyQ positionAssignedStored.premiumRealizedPL then
          jsOrZero positionAssignedStored.premiumRealizedPL else 0) ∧
      (metricsStep (fun _ => none) (metricsInit [positionAssignedStored])
          positionAssignedStored).premiumRealizedPL =
        (metricsInit [positionAssignedStored]).premiumRealizedPL +
          (if truthyQ positionAssignedStored.premiumRealizedPL then
            jsOrZero positionAssignedStored.premiumRealizedPL else 0) ∧
      (metricsStep (fun _ => none) (metricsInit [positionAssignedStored])
          positionAssignedStored).premiumUnrealizedPL =
        (metricsInit [positionAssignedStored]).premiumUnrealizedPL) :=
  ⟨(C7_assigned_accrual positionAssignedStored rfl).1 initCycleAcc,
    (C7_assigned_accrual positionAssignedStored rfl).2 (metricsInit [positionAssignedStored])
      (fun _ => none)⟩

/-- Alert evaluation only sees a stock-price map through `price || null`:
two maps with the same truthy-normalised lookups produce the same alerts. -/
theorem calculateAllAlerts_price_congr (positions : List Position)
    (sp1 sp2 : String → Option ℚ) (optionPrices : Option (String → Option ℚ))
    (cfg : StrategyConfig) (h : ∀ s, jsOrNull (sp1 s) = jsOrNull (sp2 s)) :
    calculateAllAlerts positions sp1 optionPrices cfg =
      calculateAllAlerts positions sp2 optionPrices cfg := by
  simp only [calculateAllAlerts]
  congr 1
  congr 1
  funext p
  dsimp only
  split
  · rfl
  · rw [h]

/-- The metrics fold only sees the price map through the truthy guard and
the guarded value: two maps with the same truthy-normalised lookups produce
the same step. -/
theorem metricsStep_price_congr (sp1 sp2 : String → Option ℚ)
    (h : ∀ s, jsOrNull (sp1 s) = jsOrNull (sp2 s)) (m : Metrics) (p : Position) :
    metricsStep sp1 m p = metricsStep sp2 m p := by
  have hcp := h p.stockTicker.toUpper
  simp only [metricsStep]
  generalize hg1 : sp1 p.stockTicker.toUpper = o1 at hcp ⊢
  generalize hg2 : sp2 p.stockTicker.toUpper = o2 at hcp ⊢
  rcases o1 with _ | v1 <;> rcases o2 with _ | v2 <;> simp only [jsOrNull] at hcp
  · rfl
  · split_ifs at hcp
    simp [truthyQ, *]
  · split_ifs at hcp
    simp [truthyQ, *]
  · split_ifs at hcp <;> simp [truthyQ, *]

/-- Metrics computed from two truthy-equivalent price maps agree. -/
theorem calculateMetrics_price_congr (positions : List Position)
    (sp1 sp2 : String → Option ℚ) (h : ∀ s, jsOrNull (sp1 s) = jsOrNull (sp2 s)) :
    calculateMetrics positions sp1 = calculateMetrics positions sp2 := by
  unfold calculateMetrics
  rw [show metricsStep sp1 = metricsStep sp2 from
    funext fun m => funext fun p => metricsStep_price_congr sp1 sp2 h m p]

/-- C10: a current price of exactly 0 is indistinguishable from an absent
price: evaluating alerts over a price map sending some ticker to 0 yields
the same alert list as evaluating over the map with that entry removed, and
the portfolio metrics (in particular the stock unrealized P/L) computed
from the two maps coincide. -/
theorem C10_zero_price (positions : List Position)
    (optionPrices : Option (String → Option ℚ)) (cfg : StrategyConfig)
    (prices : String → Option ℚ) (t : String) (h : prices t = some 0) :
    calculateAllAlerts positions (fun s => if s = t then none else prices s)
        optionPrices cfg =
      calculateAllAlerts positions prices optionPrices cfg ∧
    calculateMetrics positions (fun s => if s = t then none else prices s) =
      calculateMetrics positions prices := by
  have hnorm : ∀ s, jsOrNull ((fun s => if s = t then none else prices s) s) =
      jsOrNull (prices s) := by
    intro s
    by_cases hs : s = t
    · subst hs
      simp [h, jsOrNull]
    · simp [hs]
  exact ⟨calculateAllAlerts_price_congr positions _ prices optionPrices cfg hnorm,
    calculateMetrics_price_congr positions _ prices hnorm⟩

/-- Witness for C10: a singleton portfolio on ticker XYZ and a price map
sending XYZ to 0, compared against the empty map. -/
theorem C10_zero_price_witness :
    calculateAllAlerts [basePosition]
        (fun s => if s = "XYZ" then none else
          (fun u => if u = "XYZ" then some 0 else none) s) none ⟨3, 75⟩ =
      calculateAllAlerts [basePosition]
        (fun u => if u = "XYZ" then some 0 else none) none ⟨3, 75⟩ ∧
    calculateMetrics [basePosition]
        (fun s => if s = "XYZ" then none else
          (fun u => if u = "XYZ" then some 0 else none) s) =
      calculateMetrics [basePosition] (fun u => if u = "XYZ" then some 0 else none) :=
  C10_zero_price [basePosition] none ⟨3, 75⟩
    (fun u => if u = "XYZ" then some 0 else none) "XYZ" (by simp)

/-! ### Strategy configuration dismissal store (`hooks/use-strategy-alerts.ts`) -/

/-- The dismissal part of the user strategy configuration: the list of
dismissed position ids and the JavaScript object mapping position id to
dismissal timestamp (milliseconds), modelled as an insertion-ordered
association list with unique keys. The threshold fields play no role in the
dismissal operations and are omitted. -/
structure DismissalState where
  dismissedAlerts : List String
  dismissedAt : List (String × Int)
deriving DecidableEq, Repr

/-- Lookup in a JavaScript object modelled as an association list. -/
def objLookup (entries : List (String × Int)) (k : String) : Option Int :=
  match entries with
  | [] => none
  | e :: rest => if e.1 = k then some e.2 else objLookup rest k

/-- Key update in a JavaScript object (`{ ...obj, [k]: v }`): an existing
key keeps its place with the new value, a new key is appended. -/
def objSet (entries : List (String × Int)) (k : String) (v : Int) :
    List (String × Int) :=
  if entries.any (fun e => e.1 == k) then
    entries.map (fun e => if e.1 == k then (k, v) else e)
  else entries ++ [(k, v)]

/-- `dismissAlert`: append the id to the dismissal list and stamp the
current time into the timestamp object. -/
def dismissAlert (s : DismissalState) (positionId : String) (now : Int) :
    DismissalState where
  dismissedAlerts := s.dismissedAlerts ++ [positionId]
  dismissedAt := objSet s.dismissedAt positionId now

/-- `undismissAlert`: drop the id from the list and delete its timestamp key. -/
def undismissAlert (s : DismissalState) (positionId : String) : DismissalState where
  dismissedAlerts := s.dismissedAlerts.filter (fun id => id != positionId)
  dismissedAt := s.dismissedAt.filter (fun e => e.1 != positionId)

/-- `clearAllDismissed`: empty both structures. -/
def clearAllDismissed (_s : DismissalState) : DismissalState where
  dismissedAlerts := []
  dismissedAt := []

/-- The 24-hour dismissal retention window, in milliseconds
(`ALERT_REAPPEAR_HOURS * 60 * 60 * 1000`). -/
def alertReappearMs : Int := 24 * 60 * 60 * 1000

/-- The keep-predicate of the expiry sweep: an id stays dismissed when its
timestamp is present, truthy, and younger than the retention window. -/
def sweepKeep (s : DismissalState) (now : Int) (positionId : String) : Bool :=
  match objLookup s.dismissedAt positionId with
  | none => false
  | some t => if t = 0 then false else decide (now - t < alertReappearMs)

/-- The expiry sweep effect: filter the id list by the keep-predicate, keep
exactly the timestamp entries whose id survived, and only store the result
when the id list actually shrank. -/
def sweepExpired (s : DismissalState) (now : Int) : DismissalState :=
  let newDismissedAlerts := s.dismissedAlerts.filter (sweepKeep s now)
  let newDismissedAt := s.dismissedAt.filter (fun e => newDismissedAlerts.contains e.1)
  if newDismissedAlerts.length ≠ s.dismissedAlerts.length then
    { dismissedAlerts := newDismissedAlerts, dismissedAt := newDismissedAt }
  else s

/-- The synchronisation invariant: an id is in the dismissal list iff it is
a key of the timestamp object. -/
def inSync (s : DismissalState) : Prop :=
  ∀ id : String, id ∈ s.dismissedAlerts ↔ id ∈ s.dismissedAt.map Prod.fst

/-- Replacing the value at a key leaves the key list of a JavaScript object
unchanged (when the condition holds the key written equals the key found). -/
theorem objSet_replace_keys (k : String) (v : Int) (entries : List (String × Int)) :
    (entries.map (fun e => if e.1 == k then (k, v) else e)).map Prod.fst =
      entries.map Prod.fst := by
  induction entries with
  | nil => rfl
  | cons e rest ih =>
    by_cases hek : e.1 == k
    · have hk : e.1 = k := by simpa using hek
      simp only [List.map_cons, if_pos hek, ih]
      simp [hk]
    · simp only [List.map_cons, if_neg hek, ih]

/-- Membership in the keys of `objSet`: the old keys plus the new key. -/
theorem mem_objSet_keys (entries : List (String × Int)) (k : String) (v : Int)
    (x : String) :
    x ∈ (objSet entries k v).map Prod.fst ↔ x ∈ entries.map Prod.fst ∨ x = k := by
  unfold objSet
  split_ifs with hany
  · rw [objSet_replace_keys]
    constructor
    · exact Or.inl
    · rintro (hx | rfl)
      · exact hx
      · rw [List.any_eq_true] at hany
        obtain ⟨e, he, hek⟩ := hany
        rw [List.mem_map]
        exact ⟨e, he, by simpa using hek⟩
  · simp

/-- A successful lookup means the key is present. -/
theorem objLookup_mem_keys (entries : List (String × Int)) (x : String) (t : Int)
    (h : objLookup entries x = some t) : x ∈ entries.map Prod.fst := by
  induction entries with
  | nil => exact Option.noConfusion h
  | cons e rest ih =>
    unfold objLookup at h
    by_cases hex : e.1 = x
    · simp [← hex]
    · rw [if_neg hex] at h
      simp [ih h]

/-- Dropping at least one element strictly shrinks a filtered list. -/
theorem length_filter_lt {α : Type} (p : α → Bool) (l : List α) (x : α)
    (hx : x ∈ l) (hp : p x = false) : (l.filter p).length < l.length := by
  induction l with
  | nil => cases hx
  | cons a l ih =>
    rcases List.mem_cons.mp hx with rfl | hxl
    · rw [List.filter_cons_of_neg (by simp [hp])]
      exact Nat.lt_succ_of_le (List.length_filter_le p l)
    · by_cases hpa : p a
      · rw [List.filter_cons_of_pos (by simp [hpa])]
        simpa using ih hxl
      · rw [List.filter_cons_of_neg (by simp [hpa])]
        exact Nat.lt_succ_of_lt (ih hxl)

/-- C9: the dismissal synchronisation invariant (every listed id has a
timestamp key and vice versa) is preserved by dismiss, undismiss, clear-all
and the 24-hour expiry sweep, whenever it held before; and the sweep drops
an expired entry from the id list and from the timestamp map together. -/
theorem C9_dismissal_sync (s : DismissalState) (h : inSync s) :
    (∀ positionId now, inSync (dismissAlert s positionId now)) ∧
    (∀ positionId, inSync (undismissAlert s positionId)) ∧
    inSync (clearAllDismissed s) ∧
    (∀ now, inSync (sweepExpired s now)) ∧
    (∀ positionId t now, objLookup s.dismissedAt positionId = some t →
      alertReappearMs ≤ now - t →
      positionId ∉ (sweepExpired s now).dismissedAlerts ∧
      positionId ∉ (sweepExpired s now).dismissedAt.map Prod.fst) := by
  refine ⟨?_, ?_, ?_, ?_, ?_⟩
  · intro positionId now x
    simp only [dismissAlert]
    rw [List.mem_append, List.mem_singleton, mem_objSet_keys]
    exact or_congr (h x) Iff.rfl
  · intro positionId x
    simp only [undismissAlert]
    rw [List.mem_filter]
    constructor
    · rintro ⟨hx, hne⟩
      obtain ⟨e, he, rfl⟩ := List.mem_map.mp ((h x).mp hx)
      rw [List.mem_map]
      exact ⟨e, List.mem_filter.mpr ⟨he, hne⟩, rfl⟩
    · intro hx
      obtain ⟨e, he, rfl⟩ := List.mem_map.mp hx
      rw [List.mem_filter] at he
      exact ⟨(h e.1).mpr (List.mem_map.mpr ⟨e, he.1, rfl⟩), he.2⟩
  · intro x
    simp [clearAllDismissed, inSync]
  · intro now x
    simp only [sweepExpired]
    split_ifs with hlen
    · constructor
      · intro hx
        have hx' := hx
        rw [List.mem_filter] at hx'
        obtain ⟨hxl, hkeep⟩ := hx'
        have hsome : ∃ t, objLookup s.dismissedAt x = some t := by
          unfold sweepKeep at hkeep
          rcases hl : objLookup s.dismissedAt x with _ | t
          · rw [hl] at hkeep
            exact Bool.noConfusion hkeep
          · exact ⟨t, rfl⟩
        obtain ⟨t, ht⟩ := hsome
        obtain ⟨e, he, rfl⟩ := List.mem_map.mp (objLookup_mem_keys _ _ _ ht)
        rw [List.mem_map]
        exact ⟨e, List.mem_filter.mpr ⟨he, by simpa using hx⟩, rfl⟩
      · intro hx
        obtain ⟨e, he, rfl⟩ := List.mem_map.mp hx
        rw [List.mem_filter] at he
        simpa using he.2
    · exact h x
  · intro positionId t now hlook hexp
    have hkeep : sweepKeep s now positionId = false := by
      simp only [sweepKeep, hlook]
      split_ifs with ht
      · rfl
      · exact decide_eq_false (not_lt.mpr hexp)
    have hid : positionId ∈ s.dismissedAlerts :=
      (h positionId).mpr (objLookup_mem_keys _ _ _ hlook)
    have hlt := length_filter_lt (sweepKeep s now) s.dismissedAlerts positionId hid hkeep
    simp only [sweepExpired]
    rw [if_pos (Nat.ne_of_lt hlt)]
    constructor
    · intro hx
      rw [List.mem_filter, hkeep] at hx
      exact Bool.noConfusion hx.2
    · intro hx
      obtain ⟨e, he, hex⟩ := List.mem_map.mp hx
      rw [List.mem_filter] at he
      have hmem : e.1 ∈ s.dismissedAlerts.filter (sweepKeep s now) := by
        simpa using he.2
      rw [List.mem_filter, hex, hkeep] at hmem
      exact Bool.noConfusion hmem.2

/-- A dismissal state with one fresh and one expired entry. -/
def dismissalStateExample : DismissalState where
  dismissedAlerts := ["old", "fresh"]
  dismissedAt := [("old", 1), ("fresh", 86400000)]

/-- Witness for C9: on the concrete example state the invariant holds and is
preserved by a dismissal, and the sweep at 24 hours and 1 millisecond past
the old entry's stamp removes it from both structures. -/
theorem C9_dismissal_sync_witness :
    inSync (dismissAlert dismissalStateExample "p9" 5) ∧
    "old" ∉ (sweepExpired dismissalStateExample 86400002).dismissedAlerts ∧
    "old" ∉ (sweepExpired dismissalStateExample 86400002).dismissedAt.map Prod.fst := by
  obtain ⟨hd, -, -, -, hs⟩ := C9_dismissal_sync dismissalStateExample (fun _ => Iff.rfl)
  obtain ⟨h1, h2⟩ := hs "old" 1 86400002 (by decide) (by decide)
  exact ⟨hd "p9" 5, h1, h2⟩

end OptionsTracker
